import Mathlib

/-!
Verification of the nettime request-timing engine (`lib/nettime.js`, the CLI
driver, and the timing helpers) against its natural-language specification.
The JavaScript source is shallowly embedded: pure helpers become Lean
functions, the event-callback lifecycle becomes a step function on an explicit
probe state, and the orchestration loop becomes a trace-producing recursion.
-/

namespace Nettime

/-! ## Timing helpers (`lib/timings.js`)

The implementation file `lib/timings.js` is not part of the available sources;
only its callers (`lib/nettime.js`, the CLI driver) and its documentation are.
The four helpers below are therefore modelled from the spec.
-/

/-- A `process.hrtime` pair: seconds and nanoseconds.  Components are `Int`
because JavaScript subtraction can go negative on out-of-order inputs. -/
abbrev HrTime := Int × Int

/-- Modelled from the spec: `getDuration` of the missing `lib/timings.js`.
Spec 4.1: returns `end - start` performed with nanosecond borrow — if the
nanosecond difference is negative, borrow one second. -/
def getDuration (start finish : HrTime) : HrTime :=
  let seconds := finish.1 - start.1
  let nanos := finish.2 - start.2
  if nanos < 0 then (seconds - 1, nanos + 1000000000) else (seconds, nanos)

/-- Modelled from the spec: `getMilliseconds` of the missing `lib/timings.js`.
Spec 4.1: `duration.seconds * 1000 + round(duration.nanos / 1e6)` as an
integer, rounding half-up.  JavaScript `Math.round x = floor (x + 1/2)`, and
Lean `Int` division is floor division, so half-up rounding of `n / 1e6` is
`(n + 500000) / 1000000`. -/
def getMilliseconds (t : HrTime) : Int :=
  t.1 * 1000 + (t.2 + 500000) / 1000000

/-- Total nanosecond value of an `HrTime` pair. -/
def toNanosZ (t : HrTime) : Int :=
  t.1 * 1000000000 + t.2

/-- A non-negative timestamp or duration as recorded in a Timing Vector:
seconds and nanoseconds, both natural numbers. -/
abbrev Timing := Nat × Nat

/-- Total nanosecond value of a timing. -/
def toNanos (t : Timing) : Nat :=
  t.1 * 1000000000 + t.2

/-- Split a nanosecond total back into a seconds/nanoseconds pair. -/
def ofNanos (n : Nat) : Timing :=
  (n / 1000000000, n % 1000000000)

/-- The seven recognized lifecycle phases. -/
inductive Phase
  | socketOpen
  | dnsLookup
  | tcpConnection
  | tlsHandshake
  | firstByte
  | contentTransfer
  | socketClose
  deriving DecidableEq, Repr

/-- A per-run mapping of phases to durations-from-start; a phase absent from
the run maps to `none`. -/
abbrev Run := Phase → Option Timing

/-- Modelled from the spec: `computeAverageDurations` of the missing
`lib/timings.js`.  Spec 4.1: for each phase observed in any run, the
arithmetic mean over the runs where the phase is present, computed on the
combined nanosecond value and split back, rounding down; runs lacking the
phase are excluded, not counted as zero. -/
def computeAverageDurations (runs : List Run) : Run := fun p =>
  let present := runs.filterMap (fun r => r p)
  if present.isEmpty then none
  else some (ofNanos ((present.map toNanos).sum / present.length))

/-- Modelled from the spec: `createTimingsFromDurations` of the missing
`lib/timings.js`.  Spec 4.1: reconstructs absolute timestamps by adding each
duration to the base timestamp (default `(0, 0)`). -/
def createTimingsFromDurations (durations : Run) (base : Timing) : Run :=
  fun p => (durations p).map (fun d => ofNanos (toNanos base + toNanos d))

/-! ## Lifecycle event recording (`lib/nettime.js`, `makeSingleRequest`)

`makeSingleRequest` keeps a mutable `timings` object plus two flags,
`firstByte` and `socketClosed`, and installs event handlers:

* `listenToSocket` records `socketOpen` when called and assigns
  `dnsLookup` / `tcpConnection` / `tlsHandshake` unconditionally on every
  `lookup` / `connect` / `secureConnect` signal (lines 107-114);
* `checkFirstByte` records `firstByte` only when the `firstByte` flag is
  still unset, then sets the flag (lines 87-93);
* `checkSocketClosed` records `socketClose` when the `socketClosed` flag is
  unset — but the code never assigns `socketClosed`, so the guard never
  trips (lines 95-105);
* the `readable` handler calls `checkFirstByte`, the `end` handler assigns
  `contentTransfer` unconditionally (lines 116-126).
-/

/-- The Timing Vector of one probe: each phase optionally carries the
timestamp at which its lifecycle signal was recorded. -/
structure Timings where
  socketOpen : Option Timing := none
  dnsLookup : Option Timing := none
  tcpConnection : Option Timing := none
  tlsHandshake : Option Timing := none
  firstByte : Option Timing := none
  contentTransfer : Option Timing := none
  socketClose : Option Timing := none
  deriving DecidableEq, Repr

/-- Look up a phase in a Timing Vector. -/
def Timings.get (t : Timings) : Phase → Option Timing
  | .socketOpen => t.socketOpen
  | .dnsLookup => t.dnsLookup
  | .tcpConnection => t.tcpConnection
  | .tlsHandshake => t.tlsHandshake
  | .firstByte => t.firstByte
  | .contentTransfer => t.contentTransfer
  | .socketClose => t.socketClose

/-- The lifecycle signals a probe can observe.  `socket` stands for the
moment `listenToSocket` is invoked (the HTTP/1 `socket` event, or the direct
call on the HTTP/2 client socket); `streamEnd` is the response `end` event. -/
inductive Event
  | socket
  | lookup
  | connect
  | secureConnect
  | readable
  | streamEnd
  | close
  deriving DecidableEq, Repr

/-- The mutable state of one in-flight probe: the Timing Vector under
construction plus the two guard flags of `makeSingleRequest`. -/
structure ProbeState where
  timings : Timings := {}
  firstByte : Bool := false
  socketClosed : Bool := false
  deriving DecidableEq, Repr

/-- One lifecycle signal arriving at time `t`, embedded from the handlers of
`makeSingleRequest` (lines 87-126).  `lookup`, `connect`, `secureConnect`,
`streamEnd` and the `listenToSocket` entry assign their phase
unconditionally; `readable` goes through `checkFirstByte`, which records only
when the `firstByte` flag is unset and then sets it; `close` goes through
`checkSocketClosed`, which tests the `socketClosed` flag but — like the
source — never sets it. -/
def handleEvent (s : ProbeState) (e : Event) (t : Timing) : ProbeState :=
  match e with
  | .socket => { s with timings.socketOpen := some t }
  | .lookup => { s with timings.dnsLookup := some t }
  | .connect => { s with timings.tcpConnection := some t }
  | .secureConnect => { s with timings.tlsHandshake := some t }
  | .readable =>
      if s.firstByte then s
      else { s with timings.firstByte := some t, firstByte := true }
  | .streamEnd => { s with timings.contentTransfer := some t }
  | .close =>
      if s.socketClosed then s
      else { s with timings.socketClose := some t }

/-- Process a sequence of timed lifecycle signals from the initial state. -/
def processEvents (es : List (Event × Timing)) : ProbeState :=
  es.foldl (fun s et => handleEvent s et.1 et.2) {}

/-- The same lifecycle signal firing twice, first at `t₁`, then at `t₂`. -/
def doubleFire (s : ProbeState) (e : Event) (t₁ t₂ : Timing) : ProbeState :=
  handleEvent (handleEvent s e t₁) e t₂

/-! ## Orchestration (`lib/nettime.js`, `nettime`, lines 8-27)

The `nettime` entry takes an options object; when `requestCount > 1` it loops
`requestCount` times, awaiting one probe, then — when `requestDelay` is
truthy — waiting `requestDelay` milliseconds, then setting
`options.appendToOutput = true`, every iteration including the last.
Otherwise it performs a single probe.  The mutation of the caller-supplied
options object is embedded as explicit state passing.
-/

/-- The slice of the options object the orchestrator reads and writes.
`requestCount` and `requestDelay` are `Option Nat` because the JavaScript
fields may be absent; the guards `requestCount > 1` and `if (requestDelay)`
are false on an absent field, and `if (requestDelay)` is also false on 0. -/
structure Options where
  requestCount : Option Nat := none
  requestDelay : Option Nat := none
  appendToOutput : Bool := false
  deriving DecidableEq, Repr

/-- Truthiness of `options.requestDelay`: present and non-zero. -/
def delayTruthy : Option Nat → Bool
  | some d => d != 0
  | none => false

/-- One observable step of an orchestrated run: a probe (with its index and
the append flag it sees) or a `wait` of some milliseconds. -/
inductive Action
  | probe (idx : Nat) (append : Bool)
  | wait (ms : Nat)
  deriving DecidableEq, Repr

/-- The body of the `for` loop of `nettime` (lines 12-19), run `k` more
times starting at index `i`: await one probe, wait when a truthy delay is
configured, set `appendToOutput`.  Returns the action trace and the options
object as left behind for the caller. -/
def runLoop (o : Options) (i : Nat) : Nat → List Action × Options
  | 0 => ([], o)
  | k + 1 =>
      let step := Action.probe i o.appendToOutput ::
        (match o.requestDelay with
         | some d => if d != 0 then [Action.wait d] else []
         | none => [])
      let o' := { o with appendToOutput := true }
      let rest := runLoop o' (i + 1) k
      (step ++ rest.1, rest.2)

/-- Trace semantics of the `nettime` entry (lines 8-23): the sequence of
probes and waits it performs and the options object it leaves behind. -/
def nettimeTrace (o : Options) : List Action × Options :=
  match o.requestCount with
  | some n => if 1 < n then runLoop o 0 n else ([Action.probe 0 o.appendToOutput], o)
  | none => ([Action.probe 0 o.appendToOutput], o)

/-- Value semantics of the `nettime` entry: with `requestCount > 1` the
results are collected into an array, one per iteration in invocation order;
otherwise the single probe result is returned unwrapped.  `probeFn i` is the
result of the `i`-th `makeSingleRequest` invocation. -/
def nettimeResult (probeFn : Nat → α) (o : Options) : α ⊕ List α :=
  match o.requestCount with
  | some n => if 1 < n then .inr ((List.range n).map probeFn) else .inl (probeFn 0)
  | none => .inl (probeFn 0)

/-- The file-open flag chosen by `writeOutputFile` (line 58):
append when `options.appendToOutput` is set, truncate otherwise. -/
def writeFlag (o : Options) : String :=
  if o.appendToOutput then "a" else "w"

/-! ## Probe construction (`lib/nettime.js`, lines 128-150 and 249-295)

Before any request object exists, `makeSingleRequest` resolves the URL and —
when HTTP/2 was selected over a scheme other than `https:` — throws an error
with code `ERR_INSECURE_SCHEME`.  Only after that check does it take the
start time and build the HTTP/1 or HTTP/2 request.
-/

/-- An error value as thrown by `makeSingleRequest`. -/
structure RequestError where
  code : String
  message : String
  deriving DecidableEq, Repr

/-- The connection-level step the probe setup ends in: an HTTP/1 request via
the `http` or `https` module, or an HTTP/2 client connection. -/
inductive Connection
  | http1 (secure : Bool)
  | http2
  deriving DecidableEq, Repr

/-- The version/scheme prologue of `makeSingleRequest` (lines 128-150):
given the selected `httpVersion` and the parsed URL scheme, either fail with
the insecure-scheme construction error — before any connection object is
created — or select the transport.  The returned `Connection` is the first
network-facing step; an `Except.error` result carries none. -/
def setupProbe (httpVersion : String) (scheme : String) :
    Except RequestError Connection :=
  if httpVersion = "2.0" then
    if scheme ≠ "https:" then
      .error ⟨"ERR_INSECURE_SCHEME", "HTTP/2 supports only the \"https:\" protocol."⟩
    else
      .ok .http2
  else
    .ok (.http1 (scheme ≠ "http:"))

/-- Node's `http.STATUS_CODES` table (an external collaborator of the
probe), modelled as an association list from status code to reason phrase. -/
def STATUS_CODES : List (Nat × String) :=
  [(100, "Continue"), (101, "Switching Protocols"), (102, "Processing"),
   (200, "OK"), (201, "Created"), (202, "Accepted"),
   (203, "Non-Authoritative Information"), (204, "No Content"),
   (205, "Reset Content"), (206, "Partial Content"), (207, "Multi-Status"),
   (300, "Multiple Choices"), (301, "Moved Permanently"), (302, "Found"),
   (303, "See Other"), (304, "Not Modified"), (305, "Use Proxy"),
   (307, "Temporary Redirect"), (308, "Permanent Redirect"),
   (400, "Bad Request"), (401, "Unauthorized"), (402, "Payment Required"),
   (403, "Forbidden"), (404, "Not Found"), (405, "Method Not Allowed"),
   (406, "Not Acceptable"), (407, "Proxy Authentication Required"),
   (408, "Request Timeout"), (409, "Conflict"), (410, "Gone"),
   (411, "Length Required"), (412, "Precondition Failed"),
   (413, "Payload Too Large"), (414, "URI Too Long"),
   (415, "Unsupported Media Type"), (416, "Range Not Satisfiable"),
   (417, "Expectation Failed"), (418, "I am a Teapot"),
   (421, "Misdirected Request"), (422, "Unprocessable Entity"),
   (423, "Locked"), (424, "Failed Dependency"), (426, "Upgrade Required"),
   (428, "Precondition Required"), (429, "Too Many Requests"),
   (431, "Request Header Fields Too Large"),
   (451, "Unavailable For Legal Reasons"),
   (500, "Internal Server Error"), (501, "Not Implemented"),
   (502, "Bad Gateway"), (503, "Service Unavailable"),
   (504, "Gateway Timeout"), (505, "HTTP Version Not Supported"),
   (506, "Variant Also Negotiates"), (507, "Insufficient Storage"),
   (508, "Loop Detected"), (510, "Not Extended"),
   (511, "Network Authentication Required")]

/-- `http.STATUS_CODES[statusCode]`: `none` when the code is absent. -/
def lookupStatus (code : Nat) : Option String :=
  (STATUS_CODES.find? (fun p => p.1 = code)).map (fun p => p.2)

/-- An HTTP/1.x server response as delivered by Node: the status line
carries the version the server responded with, the status code and the
reason phrase sent by the server. -/
structure ServerResponse1 where
  httpVersion : String
  statusCode : Nat
  statusMessage : String
  headers : List (String × String)
  deriving DecidableEq, Repr

/-- The HTTP/2 response headers object: the numeric `:status`
pseudo-header plus the ordinary headers.  HTTP/2 responses carry neither a
protocol version nor a reason phrase. -/
structure Http2Headers where
  status : Nat
  rest : List (String × String)
  deriving DecidableEq, Repr

/-- The fields of the response object that `returnResult` (lines 38-52)
copies into the Result. -/
structure ResponseData where
  httpVersion : String
  statusCode : Nat
  statusMessage : Option String
  deriving DecidableEq, Repr

/-- A server exchange as seen by one probe: an HTTP/1.x response (the
`1.0` and `1.1` selections share this code path) or an HTTP/2 response. -/
inductive Exchange
  | http1 (resp : ServerResponse1)
  | http2 (headers : Http2Headers)
  deriving DecidableEq, Repr

/-- Spec-side definition, for comparison with `probeResponse`: the HTTP
version actually negotiated with the server.  For an HTTP/1.x exchange it is
the version of the status line the server sent; an HTTP/2 exchange is by the
protocol itself version `2.0` (HTTP/2 frames carry no version field). -/
def negotiatedVersion : Exchange → String
  | .http1 resp => resp.httpVersion
  | .http2 _ => "2.0"

/-- The response object built by the probe.  On the HTTP/1 path (line 278)
it is the Node response, whose `httpVersion`, `statusCode` and
`statusMessage` come from the server status line.  On the HTTP/2 path
(lines 263-267) `makeHTTP2Request` builds it: the status code is the
`:status` pseudo-header, the status message is `http.STATUS_CODES[status]`,
and `httpVersion` is the surrounding `httpVersion` variable — the requested
version, necessarily `"2.0"` on this branch (line 146). -/
def probeResponse : Exchange → ResponseData
  | .http1 resp => ⟨resp.httpVersion, resp.statusCode, some resp.statusMessage⟩
  | .http2 h => ⟨"2.0", h.status, lookupStatus h.status⟩

/-! ## CLI averaging fold (the unnamed driver script, `computeAverageTimings`)

With `--average-timings`, the driver validates that every result of the run
carries the status code of the first result, failing at the first mismatch
with an error naming both codes; on success it averages the timings and
builds a synthetic result reusing the first result's `httpVersion`,
`statusCode` and `statusMessage`.
-/

/-- A result as consumed by the averaging fold. -/
structure CliResult where
  timings : Run
  httpVersion : String
  statusCode : Nat
  statusMessage : Option String

/-- The message of the error thrown by `checkStatusCodes` on a mismatch. -/
def consistencyMessage (first conflicting : Nat) : String :=
  "Status code of the first request was " ++ toString first ++
    ", but " ++ toString conflicting ++ " was received later."

/-- The scan of `checkStatusCodes`: the first status code in the tail that
differs from the first result's status code, when any does. -/
def findConflict (first : Nat) : List Nat → Option Nat
  | [] => none
  | c :: rest => if first ≠ c then some c else findConflict first rest

/-- The averaging fold `computeAverageTimings` of the driver script
(lines 168-192): check status-code consistency, average the per-run timings,
reconstruct a timing vector anchored at `(0, 0)` and reuse the first
result's version, status code and status message.  On an empty run set the
script would crash destructuring `results[0]`; the driver only calls it with
`requestCount > 1` results. -/
def computeAverageTimings : List CliResult → Except String CliResult
  | [] => .error "TypeError"
  | first :: rest =>
      match findConflict first.statusCode (rest.map (fun r => r.statusCode)) with
      | some c => .error (consistencyMessage first.statusCode c)
      | none =>
          .ok { timings := createTimingsFromDurations
                  (computeAverageDurations ((first :: rest).map (fun r => r.timings))) (0, 0),
                httpVersion := first.httpVersion,
                statusCode := first.statusCode,
                statusMessage := first.statusMessage }

/-! ## Theorems -/

/-- The delay block appended after each probe by the loop body. -/
def delayActions (delay : Option Nat) : List Action :=
  match delay with
  | some d => if d != 0 then [Action.wait d] else []
  | none => []

/-- Closed form of the orchestration loop: probe `i + j` for `j < k` — the
first probe seeing the incoming append flag, every later one seeing `true` —
each followed by the delay block, with the append flag left set whenever at
least one iteration ran. -/
theorem runLoop_eq (k : Nat) (i : Nat) (o : Options) :
    runLoop o i k =
      ((List.range k).flatMap (fun j =>
        Action.probe (i + j) (if j = 0 then o.appendToOutput else true) ::
          delayActions o.requestDelay),
       if k = 0 then o else { o with appendToOutput := true }) := by
  induction k generalizing i o with
  | zero => simp [runLoop]
  | succ k ih =>
      rw [runLoop, ih (i + 1) { o with appendToOutput := true }]
      rw [List.range_succ_eq_map]
      simp only [List.flatMap_cons, List.flatMap_map, Prod.mk.injEq]
      refine ⟨?_, ?_⟩
      · simp only [Nat.add_zero, reduceIte, List.cons_append, List.append_assoc]
        refine congrArg₂ List.cons rfl ?_
        refine congrArg₂ (· ++ ·) rfl ?_
        apply List.flatMap_congr
        intro j hj
        simp [Nat.succ_ne_zero, Nat.add_comm, Nat.add_assoc, Nat.add_left_comm]
      · simp

/-- A list filtered down to the elements on which `f` succeeds has the same
`filterMap` image as the original list. -/
theorem filterMap_filter_isSome {α β : Type} (f : α → Option β) (l : List α) :
    l.filterMap f = (l.filter (fun x => (f x).isSome)).filterMap f := by
  induction l with
  | nil => rfl
  | cons x xs ih =>
      cases h : f x <;> simp [List.filterMap_cons, List.filter_cons, h, ih]

/-- Splitting a combined nanosecond value back into seconds and nanoseconds
is the inverse of combining, for a normalized timing. -/
theorem ofNanos_toNanos (t : Timing) (h : t.2 < 1000000000) :
    ofNanos (toNanos t) = t := by
  obtain ⟨s, ns⟩ := t
  simp only [ofNanos, toNanos, Prod.mk.injEq]
  simp only at h
  constructor <;> omega

/-- `filterMap` over a constant list keeps all copies or none. -/
theorem filterMap_const_replicate {α β : Type} (f : α → Option β) (x : α) (n : Nat) :
    (List.replicate n x).filterMap f =
      match f x with
      | none => []
      | some y => List.replicate n y := by
  induction n with
  | zero => cases f x <;> rfl
  | succ n ih =>
      rw [List.replicate_succ, List.filterMap_cons]
      cases h : f x <;> simp [h, ih, List.replicate_succ]

/-- The status-code scan finds nothing when every code matches the first. -/
theorem findConflict_eq_none (first : Nat) (codes : List Nat)
    (h : ∀ c ∈ codes, c = first) : findConflict first codes = none := by
  induction codes with
  | nil => rfl
  | cons c cs ih =>
      rw [findConflict, if_neg (fun hne => hne (h c (List.mem_cons_self _ _)).symm)]
      exact ih (fun x hx => h x (List.mem_cons_of_mem _ hx))

/-- The status-code scan reports a mismatching code whenever one exists. -/
theorem findConflict_eq_some (first : Nat) (codes : List Nat)
    (h : ∃ c ∈ codes, c ≠ first) :
    ∃ c, findConflict first codes = some c ∧ c ≠ first ∧ c ∈ codes := by
  induction codes with
  | nil => simp at h
  | cons c cs ih =>
      by_cases hc : first ≠ c
      · exact ⟨c, by rw [findConflict, if_pos hc], Ne.symm hc, List.mem_cons_self _ _⟩
      · push_neg at hc
        obtain ⟨x, hx, hxne⟩ := h
        have hxcs : x ∈ cs := by
          rcases List.mem_cons.mp hx with rfl | hm
          · exact absurd hc.symm hxne
          · exact hm
        obtain ⟨y, hy, hyne, hymem⟩ := ih ⟨x, hxcs, hxne⟩
        exact ⟨y, by rw [findConflict, if_neg (by simp [hc])]; exact hy,
          hyne, List.mem_cons_of_mem _ hymem⟩

/-- An orchestrated run starting with the append flag already set begins
with an appending probe, whatever the request count. -/
theorem head_probe (o : Options) (h : o.appendToOutput = true) :
    (nettimeTrace o).1.head? = some (Action.probe 0 true) := by
  match ho : o.requestCount with
  | none => simp [nettimeTrace, ho, h]
  | some m =>
      simp only [nettimeTrace, ho]
      split
      · next hm =>
          obtain ⟨k, rfl⟩ := Nat.exists_eq_succ_of_ne_zero (by omega : m ≠ 0)
          simp [runLoop, h]
      · simp [h]

/-- C1 counterexample: the claim that every phase keeps its first recorded
timestamp is false — two `lookup` signals at times `(0, 1)` and `(0, 2)`
leave `dnsLookup` at the later time `(0, 2)`, not at the first `(0, 1)`. -/
theorem dnsLookup_duplicate_overwrites :
    (processEvents [(.lookup, (0, 1)), (.lookup, (0, 2))]).timings.dnsLookup
        = some ((0, 2) : Timing) ∧
    (processEvents [(.lookup, (0, 1)), (.lookup, (0, 2))]).timings.dnsLookup
        ≠ some ((0, 1) : Timing) := by
  refine ⟨rfl, ?_⟩
  decide

/-- C1 amended: only `firstByte` is recorded first-occurrence-wins — a
duplicate `readable` signal is a no-op on it.  For the six other phases —
`socketOpen`, `dnsLookup`, `tcpConnection`, `tlsHandshake`,
`contentTransfer`, and `socketClose`, whose guard flag is checked but never
set — a duplicate lifecycle signal overwrites the recorded timestamp, so the
last occurrence wins. -/
theorem duplicate_signal_behaviour (s : ProbeState) (t₁ t₂ : Timing)
    (hf : s.firstByte = false) (hc : s.socketClosed = false) :
    (doubleFire s .readable t₁ t₂).timings.firstByte = some t₁ ∧
    (doubleFire s .socket t₁ t₂).timings.socketOpen = some t₂ ∧
    (doubleFire s .lookup t₁ t₂).timings.dnsLookup = some t₂ ∧
    (doubleFire s .connect t₁ t₂).timings.tcpConnection = some t₂ ∧
    (doubleFire s .secureConnect t₁ t₂).timings.tlsHandshake = some t₂ ∧
    (doubleFire s .streamEnd t₁ t₂).timings.contentTransfer = some t₂ ∧
    (doubleFire s .close t₁ t₂).timings.socketClose = some t₂ := by
  simp [doubleFire, handleEvent, hf, hc]

/-- C1 witness: the amended duplicate-signal behaviour evaluated at the
initial probe state with times `(0, 1)` and `(0, 2)`. -/
theorem duplicate_signal_behaviour_witness :
    (doubleFire {} .readable (0, 1) (0, 2)).timings.firstByte = some ((0, 1) : Timing) ∧
    (doubleFire {} .socket (0, 1) (0, 2)).timings.socketOpen = some ((0, 2) : Timing) ∧
    (doubleFire {} .lookup (0, 1) (0, 2)).timings.dnsLookup = some ((0, 2) : Timing) ∧
    (doubleFire {} .connect (0, 1) (0, 2)).timings.tcpConnection = some ((0, 2) : Timing) ∧
    (doubleFire {} .secureConnect (0, 1) (0, 2)).timings.tlsHandshake = some ((0, 2) : Timing) ∧
    (doubleFire {} .streamEnd (0, 1) (0, 2)).timings.contentTransfer = some ((0, 2) : Timing) ∧
    (doubleFire {} .close (0, 1) (0, 2)).timings.socketClose = some ((0, 2) : Timing) :=
  duplicate_signal_behaviour {} (0, 1) (0, 2) rfl rfl

/-- C3: on every exchange the Result's `httpVersion` is the version
negotiated with the server — the status-line version for the shared
HTTP/1.0 and HTTP/1.1 path, and `2.0` for an HTTP/2 exchange. -/
theorem httpVersion_is_negotiated (ex : Exchange) :
    (probeResponse ex).httpVersion = negotiatedVersion ex := by
  cases ex <;> rfl

/-- C4: selecting protocol version 2.0 over any scheme other than `https:`
fails with the `ERR_INSECURE_SCHEME` construction error, and the setup
yields no connection at all — the failure precedes any network activity. -/
theorem http2_insecure_scheme_rejected (v scheme : String)
    (hv : v = "2.0") (hs : scheme ≠ "https:") :
    setupProbe v scheme =
      Except.error ⟨"ERR_INSECURE_SCHEME",
        "HTTP/2 supports only the \"https:\" protocol."⟩ ∧
    ∀ c : Connection, setupProbe v scheme ≠ Except.ok c := by
  subst hv
  refine ⟨?_, ?_⟩
  · simp [setupProbe, hs]
  · intro c
    simp [setupProbe, hs]

/-- C4 witness: HTTP/2 requested over the plain `http:` scheme. -/
theorem http2_insecure_scheme_rejected_witness :
    setupProbe "2.0" "http:" =
      Except.error ⟨"ERR_INSECURE_SCHEME",
        "HTTP/2 supports only the \"https:\" protocol."⟩ ∧
    ∀ c : Connection, setupProbe "2.0" "http:" ≠ Except.ok c :=
  http2_insecure_scheme_rejected "2.0" "http:" rfl (by decide)

/-- C10: on the HTTP/2 path the status message is not taken from the server
response — it is the lookup of the numeric `:status` pseudo-header in the
`http.STATUS_CODES` table, and a status code absent from that table leaves
the status message undefined. -/
theorem http2_statusMessage_synthesized (h : Http2Headers) :
    (probeResponse (.http2 h)).statusMessage = lookupStatus h.status ∧
    ((∀ p ∈ STATUS_CODES, p.1 ≠ h.status) →
      (probeResponse (.http2 h)).statusMessage = none) := by
  refine ⟨rfl, fun habs => ?_⟩
  have : STATUS_CODES.find? (fun p => p.1 = h.status) = none := by
    rw [List.find?_eq_none]
    intro p hp
    simpa using habs p hp
  simp [probeResponse, lookupStatus, this]

/-- C10 witness: status code 999 is absent from the table, so the
synthesized status message is undefined. -/
theorem http2_statusMessage_synthesized_witness :
    (probeResponse (.http2 ⟨999, []⟩)).statusMessage = lookupStatus 999 ∧
    (probeResponse (.http2 ⟨999, []⟩)).statusMessage = none :=
  ⟨(http2_statusMessage_synthesized ⟨999, []⟩).1,
   (http2_statusMessage_synthesized ⟨999, []⟩).2 (by decide)⟩

/-- C2 counterexample: with two requests and a truthy 5 ms delay the
orchestrator waits after the final probe too, and with two requests and no
delay supplied it performs no wait at all — no 100 ms default is applied by
the entry operation. -/
theorem wait_follows_final_probe :
    (nettimeTrace { requestCount := some 2, requestDelay := some 5 }).1
      = [Action.probe 0 false, Action.wait 5, Action.probe 1 true, Action.wait 5] ∧
    (nettimeTrace { requestCount := some 2, requestDelay := none }).1
      = [Action.probe 0 false, Action.probe 1 true] := by
  decide

/-- C2 amended: in a multi-request run with a truthy delay `d` the
orchestrator waits `d` milliseconds after every probe invocation, the final
one included; and when no delay is supplied to the entry operation it
performs no inter-request wait at all — the 100 millisecond default is
applied by the CLI layer, not by the orchestrator. -/
theorem delay_after_every_probe (o : Options) (n d : Nat)
    (hn : 1 < n) (hc : o.requestCount = some n)
    (hd : o.requestDelay = some d) (hd0 : d ≠ 0) :
    (nettimeTrace o).1 =
      (List.range n).flatMap (fun i =>
        [Action.probe i (if i = 0 then o.appendToOutput else true), Action.wait d]) ∧
    (∀ o2 : Options, o2.requestDelay = none →
      ∀ ms, Action.wait ms ∉ (nettimeTrace o2).1) := by
  constructor
  · simp only [nettimeTrace, hc, if_pos hn, runLoop_eq]
    apply List.flatMap_congr
    intro j hj
    simp [delayActions, hd, hd0]
  · intro o2 hd2 ms
    match ho : o2.requestCount with
    | none => simp [nettimeTrace, ho]
    | some m =>
        simp only [nettimeTrace, ho]
        split
        · rw [runLoop_eq]
          simp [List.mem_flatMap, delayActions, hd2]
        · simp

/-- C2 witness: the amended delay behaviour evaluated at a two-request run
with a 5 ms delay. -/
theorem delay_after_every_probe_witness :
    (nettimeTrace { requestCount := some 2, requestDelay := some 5 }).1 =
      (List.range 2).flatMap (fun i =>
        [Action.probe i (if i = 0 then false else true), Action.wait 5]) ∧
    (∀ o2 : Options, o2.requestDelay = none →
      ∀ ms, Action.wait ms ∉ (nettimeTrace o2).1) :=
  delay_after_every_probe { requestCount := some 2, requestDelay := some 5 } 2 5
    (by decide) rfl rfl (by decide)

/-- C5: the averaging fold fails with the consistency error naming the first
status code and the first conflicting later one whenever any two results of
the run set carry different status codes, and when all status codes agree it
returns a synthetic result whose `httpVersion`, `statusCode` and
`statusMessage` are taken from the first result. -/
theorem average_fold (first : CliResult) (rest : List CliResult) :
    ((∃ a ∈ first :: rest, ∃ b ∈ first :: rest, a.statusCode ≠ b.statusCode) →
      ∃ c, c ≠ first.statusCode ∧ (∃ r ∈ rest, r.statusCode = c) ∧
        computeAverageTimings (first :: rest) =
          .error (consistencyMessage first.statusCode c)) ∧
    ((∀ r ∈ rest, r.statusCode = first.statusCode) →
      ∃ res, computeAverageTimings (first :: rest) = .ok res ∧
        res.httpVersion = first.httpVersion ∧
        res.statusCode = first.statusCode ∧
        res.statusMessage = first.statusMessage) := by
  constructor
  · rintro ⟨a, ha, b, hb, hab⟩
    have hex : ∃ c ∈ rest.map (fun r => r.statusCode), c ≠ first.statusCode := by
      by_cases haf : a.statusCode = first.statusCode
      · have hbf : b.statusCode ≠ first.statusCode := fun hbf => hab (haf.trans hbf.symm)
        have hbrest : b ∈ rest := by
          rcases List.mem_cons.mp hb with rfl | hm
          · exact absurd rfl hbf
          · exact hm
        exact ⟨b.statusCode, List.mem_map_of_mem _ hbrest, hbf⟩
      · have harest : a ∈ rest := by
          rcases List.mem_cons.mp ha with rfl | hm
          · exact absurd rfl haf
          · exact hm
        exact ⟨a.statusCode, List.mem_map_of_mem _ harest, haf⟩
    obtain ⟨c, hfc, hcne, hcmem⟩ := findConflict_eq_some first.statusCode _ hex
    obtain ⟨r, hr, hrc⟩ := List.mem_map.mp hcmem
    refine ⟨c, hcne, ⟨r, hr, hrc⟩, ?_⟩
    rw [computeAverageTimings, hfc]
  · intro hall
    have hnone : findConflict first.statusCode (rest.map (fun r => r.statusCode)) = none := by
      refine findConflict_eq_none _ _ ?_
      intro c hc
      obtain ⟨r, hr, rfl⟩ := List.mem_map.mp hc
      exact hall r hr
    refine ⟨{ timings := createTimingsFromDurations
                  (computeAverageDurations ((first :: rest).map (fun r => r.timings))) (0, 0),
              httpVersion := first.httpVersion,
              statusCode := first.statusCode,
              statusMessage := first.statusMessage }, ?_, rfl, rfl, rfl⟩
    rw [computeAverageTimings, hnone]

/-- C5 witness: the spec example — status codes 200, 200, 404 fail naming
200 and 404, and a homogeneous 200, 200 run set folds to a result carrying
the first result's version, code and message. -/
theorem average_fold_witness :
    (∃ c, c ≠ 200 ∧
      (∃ r ∈ [(⟨fun _ => none, "1.1", 200, some "OK"⟩ : CliResult),
              ⟨fun _ => none, "1.1", 404, some "Not Found"⟩],
        r.statusCode = c) ∧
      computeAverageTimings
          [⟨fun _ => none, "1.1", 200, some "OK"⟩,
           ⟨fun _ => none, "1.1", 200, some "OK"⟩,
           ⟨fun _ => none, "1.1", 404, some "Not Found"⟩] =
        .error (consistencyMessage 200 c)) ∧
    (∃ res, computeAverageTimings
          [(⟨fun _ => none, "1.1", 200, some "OK"⟩ : CliResult),
           ⟨fun _ => none, "1.1", 200, some "OK"⟩] = .ok res ∧
      res.httpVersion = "1.1" ∧ res.statusCode = 200 ∧ res.statusMessage = some "OK") :=
  ⟨(average_fold ⟨fun _ => none, "1.1", 200, some "OK"⟩
      [⟨fun _ => none, "1.1", 200, some "OK"⟩,
       ⟨fun _ => none, "1.1", 404, some "Not Found"⟩]).1
    ⟨⟨fun _ => none, "1.1", 200, some "OK"⟩, List.mem_cons_self _ _,
     ⟨fun _ => none, "1.1", 404, some "Not Found"⟩, by simp, by decide⟩,
   (average_fold ⟨fun _ => none, "1.1", 200, some "OK"⟩
      [⟨fun _ => none, "1.1", 200, some "OK"⟩]).2
    (by intro r hr; rcases List.mem_singleton.mp hr with rfl; rfl)⟩

/-- C6: the cross-run average ignores runs in which a phase is absent —
dropping those runs leaves the phase's average unchanged, so absence is
exclusion, not a zero — and averaging any number of identical runs with
normalized durations returns those durations unchanged. -/
theorem average_excludes_absent :
    (∀ (runs : List Run) (p : Phase),
        computeAverageDurations runs p =
          computeAverageDurations (runs.filter (fun r => (r p).isSome)) p) ∧
    (∀ (r : Run) (n : Nat), 0 < n →
        (∀ p t, r p = some t → t.2 < 1000000000) →
        ∀ p, computeAverageDurations (List.replicate n r) p = r p) := by
  constructor
  · intro runs p
    simp only [computeAverageDurations]
    rw [← filterMap_filter_isSome]
  · intro r n hn hvalid p
    simp only [computeAverageDurations, filterMap_const_replicate]
    cases h : r p with
    | none => simp
    | some t =>
        have hne : (List.replicate n t).isEmpty = false := by
          cases n with
          | zero => omega
          | succ k => simp [List.replicate_succ]
        simp only [hne, List.map_replicate, List.sum_replicate,
          List.length_replicate, smul_eq_mul, Bool.false_eq_true, if_false]
        rw [Nat.mul_div_cancel_left _ hn]
        rw [ofNanos_toNanos t (hvalid p t h)]

/-- C6 witness: a run with `dnsLookup` 10 ms averaged with a run lacking the
phase equals the average over the present run alone, and three identical
runs average to the original 10 ms duration. -/
theorem average_excludes_absent_witness :
    computeAverageDurations
        [(fun _ => some ((0, 10000000) : Timing)), (fun _ => none)] Phase.dnsLookup =
      computeAverageDurations
        ([(fun _ => some ((0, 10000000) : Timing)), (fun _ => none)].filter
          (fun r => (r Phase.dnsLookup).isSome)) Phase.dnsLookup ∧
    computeAverageDurations (List.replicate 3 (fun _ => some ((0, 10000000) : Timing)))
        Phase.dnsLookup = some (0, 10000000) :=
  ⟨average_excludes_absent.1 _ Phase.dnsLookup,
   average_excludes_absent.2 (fun _ => some (0, 10000000)) 3 (by decide)
     (by intro p t h; injection h with h2; subst h2; decide) Phase.dnsLookup⟩

/-- C7: with request count 1 or unset the entry operation returns the single
probe result unwrapped, and with request count greater than 1 it returns the
ordered array of exactly `count` results, the `i`-th entry coming from the
`i`-th probe invocation. -/
theorem result_shape {α : Type} (probeFn : Nat → α) (o : Options) :
    ((o.requestCount = some 1 ∨ o.requestCount = none) →
      nettimeResult probeFn o = Sum.inl (probeFn 0)) ∧
    (∀ n, o.requestCount = some n → 1 < n →
      ∃ l, nettimeResult probeFn o = Sum.inr l ∧ l.length = n ∧
        ∀ i, i < n → l[i]? = some (probeFn i)) := by
  constructor
  · rintro (h | h) <;> simp [nettimeResult, h]
  · intro n hc hn
    refine ⟨(List.range n).map probeFn, by simp [nettimeResult, hc, hn], by simp, ?_⟩
    intro i hi
    simp [List.getElem?_map, List.getElem?_range, hi]

/-- C7 witness: request count 1 yields the bare result of probe 0; request
count 3 yields a three-element array holding the results of probes 0-2. -/
theorem result_shape_witness :
    nettimeResult (fun i : Nat => i) { requestCount := some 1 } = Sum.inl 0 ∧
    (∃ l, nettimeResult (fun i : Nat => i) { requestCount := some 3 } = Sum.inr l ∧
      l.length = 3 ∧ ∀ i, i < 3 → l[i]? = some i) :=
  ⟨(result_shape (fun i : Nat => i) { requestCount := some 1 }).1 (Or.inl rfl),
   (result_shape (fun i : Nat => i) { requestCount := some 3 }).2 3 rfl (by decide)⟩

/-- C8: for monotonically ordered, normalized hrtime pairs the duration is
non-negative componentwise, its combined nanosecond value is the exact
difference of the endpoints, converting it to milliseconds is the half-up
rounding of that difference over one million, and in particular the duration
from `(0, 500000000)` to `(1, 0)` converts to 500 ms. -/
theorem duration_nonneg_ms (a b : HrTime)
    (ha : 0 ≤ a.2) (ha2 : a.2 < 1000000000) (hb : 0 ≤ b.2) (hb2 : b.2 < 1000000000)
    (hab : a.1 < b.1 ∨ (a.1 = b.1 ∧ a.2 ≤ b.2)) :
    0 ≤ (getDuration a b).1 ∧ 0 ≤ (getDuration a b).2 ∧
    toNanosZ (getDuration a b) = toNanosZ b - toNanosZ a ∧
    getMilliseconds (getDuration a b) =
      (toNanosZ b - toNanosZ a + 500000) / 1000000 ∧
    getMilliseconds (getDuration (0, 500000000) (1, 0)) = 500 := by
  obtain ⟨as, an⟩ := a
  obtain ⟨bs, bn⟩ := b
  simp only at ha ha2 hb hb2 hab
  refine ⟨?_, ?_, ?_, ?_, ?_⟩
  · simp only [getDuration]
    split <;> simp <;> omega
  · simp only [getDuration]
    split <;> simp <;> omega
  · simp only [getDuration, toNanosZ]
    split <;> simp <;> ring_nf
  · simp only [getDuration, toNanosZ, getMilliseconds]
    split <;> simp <;> omega
  · decide

/-- C8 witness: the theorem evaluated at the pair from the spec example,
`(0, 500000000)` to `(1, 0)`. -/
theorem duration_nonneg_ms_witness :
    0 ≤ (getDuration (0, 500000000) (1, 0)).1 ∧
    0 ≤ (getDuration (0, 500000000) (1, 0)).2 ∧
    toNanosZ (getDuration (0, 500000000) (1, 0)) =
      toNanosZ (1, 0) - toNanosZ (0, 500000000) ∧
    getMilliseconds (getDuration (0, 500000000) (1, 0)) =
      (toNanosZ (1, 0) - toNanosZ (0, 500000000) + 500000) / 1000000 ∧
    getMilliseconds (getDuration (0, 500000000) (1, 0)) = 500 :=
  duration_nonneg_ms (0, 500000000) (1, 0) (by decide) (by decide) (by decide)
    (by decide) (Or.inl (by decide))

/-- C9: a multi-request run leaves the caller-supplied options object with
`appendToOutput` set: every probe after the first sees the flag already set,
the flag is still set once the run settles — so a probe run from that object
would open the output file in append mode — and any subsequent run reusing
the object starts with an appending first probe. -/
theorem options_mutation (o : Options) (n : Nat)
    (hc : o.requestCount = some n) (hn : 1 < n) :
    (nettimeTrace o).2.appendToOutput = true ∧
    (∀ i b, Action.probe i b ∈ (nettimeTrace o).1 → 0 < i → b = true) ∧
    writeFlag (nettimeTrace o).2 = "a" ∧
    (∀ c : Option Nat,
      (nettimeTrace { (nettimeTrace o).2 with requestCount := c }).1.head? =
        some (Action.probe 0 true)) := by
  have htr : nettimeTrace o = runLoop o 0 n := by
    simp [nettimeTrace, hc, hn]
  have hsnd : (nettimeTrace o).2.appendToOutput = true := by
    rw [htr, runLoop_eq]
    simp only
    rw [if_neg (by omega : ¬ n = 0)]
  refine ⟨hsnd, ?_, ?_, ?_⟩
  · intro i b hmem hi
    rw [htr, runLoop_eq] at hmem
    simp only [List.mem_flatMap, List.mem_cons] at hmem
    obtain ⟨j, hj, hcase | hcase⟩ := hmem
    · obtain ⟨h1, h2⟩ := Action.probe.inj hcase
      subst h1
      rw [if_neg (by omega)] at h2
      exact h2
    · exfalso
      cases hdo : o.requestDelay with
      | none => simp [delayActions, hdo] at hcase
      | some d =>
          simp only [delayActions, hdo] at hcase
          split at hcase <;> simp at hcase
  · simp [writeFlag, hsnd]
  · intro c
    exact head_probe _ hsnd

/-- C9 witness: the mutation observed on a two-request run. -/
theorem options_mutation_witness :
    (nettimeTrace { requestCount := some 2 }).2.appendToOutput = true ∧
    (∀ i b, Action.probe i b ∈ (nettimeTrace { requestCount := some 2 }).1 →
      0 < i → b = true) ∧
    writeFlag (nettimeTrace { requestCount := some 2 }).2 = "a" ∧
    (∀ c : Option Nat,
      (nettimeTrace
          { (nettimeTrace { requestCount := some 2 }).2 with requestCount := c }).1.head? =
        some (Action.probe 0 true)) :=
  options_mutation { requestCount := some 2 } 2 rfl (by decide)

end Nettime
